import Mathlib

/-!
Verification of the AI trading bot's decision-to-execution pipeline.

Shallow embedding of the Python sources:
* `src/utils/confidence_converter.py` — confidence category/number conversion;
* `src/utils/indicators.py` — technical indicators (RSI, MACD, EMA, SMA,
  Bollinger, ATR, volume ratio);
* `src/data/market_data.py` — `MarketDataManager._calculate_indicators`,
  the neutral-default substitution layer;
* `src/data/account_data.py` — `AccountDataManager.get_account_summary` and
  `_calculate_margin_ratio`;
* `src/trading/trade_executor.py` — `TradeExecutor.close_position` and the
  open-long / open-short exchange call sequences;
* `src/main.py` — `TradingBot.execute_decision`, `_open_long`, `_open_short`,
  `save_decision`, and the history effect of `run_cycle`.

Numbers are modelled by `ℚ` (idealised IEEE doubles: every arithmetic step
performed by the program is modelled exactly, without rounding).  The two
places where IEEE special values actually matter — the `0/0` and `x/0`
(x > 0) divisions in `calculate_rsi` — are modelled explicitly via `PyFloat`
(`nan`, or a rational value), mirroring numpy semantics: `0.0/0.0 = nan`
(so `100 - 100/(1+nan) = nan`) and `x/0.0 = inf` for `x > 0`
(so `100 - 100/(1+inf) = 100` exactly).  Side effects against the exchange
are modelled as explicit traces of `Eff` events.
-/

namespace AITradingBot

/-! ### Confidence conversion — `src/utils/confidence_converter.py`

A confidence arrives either as a string or as a number
(`Union[str, float, int]`). -/

inductive ConfVal where
  | str (s : String)
  | num (q : ℚ)
deriving DecidableEq

/-- Python's `str.upper()` (character-wise upper-casing; on the ASCII
vocabulary tokens involved this agrees with Unicode upper-casing). -/
def pyUpper (s : String) : String :=
  ⟨s.data.map Char.toUpper⟩

/-- Python's `str.strip()`: remove leading and trailing whitespace. -/
def pyStrip (s : String) : String :=
  ⟨((s.data.dropWhile Char.isWhitespace).reverse.dropWhile
      Char.isWhitespace).reverse⟩

/-- The `confidence.upper().strip()` normalisation both converters apply
to string inputs. -/
def normalizeConf (s : String) : String :=
  pyStrip (pyUpper s)

/-- `convert_confidence_to_float` (confidence_converter.py lines 8–36):
strings are upper-cased and stripped, then looked up in
`{HIGH: 0.8, MEDIUM: 0.6, LOW: 0.4}` with default `0.5`; numbers are
returned unchanged (`float()` of an int/float never raises). -/
def convert_confidence_to_float : ConfVal → ℚ
  | .str s =>
    let c := normalizeConf s
    if c = "HIGH" then 4/5
    else if c = "MEDIUM" then 3/5
    else if c = "LOW" then 2/5
    else 1/2
  | .num q => q

/-- `convert_confidence_to_string` (confidence_converter.py lines 39–62):
strings are upper-cased and stripped and returned; a number `q` maps to
`HIGH` when `q ≥ 0.75`, `MEDIUM` when `q ≥ 0.55`, else `LOW`. -/
def convert_confidence_to_string : ConfVal → String
  | .str s => normalizeConf s
  | .num q =>
    if 3/4 ≤ q then "HIGH"
    else if 11/20 ≤ q then "MEDIUM"
    else "LOW"

/-- The bucket value a number falls into under `convert_confidence_to_string`
followed by `convert_confidence_to_float`: `HIGH` ↦ 0.8, `MEDIUM` ↦ 0.6,
`LOW` ↦ 0.4. -/
def confidenceBucket (q : ℚ) : ℚ :=
  if 3/4 ≤ q then 4/5
  else if 11/20 ≤ q then 3/5
  else 2/5

/-- The round trip `to_float (to_string (to_float x))` from the spec. -/
def confidenceRoundTrip (x : ConfVal) : ℚ :=
  convert_confidence_to_float
    (.str (convert_confidence_to_string (.num (convert_confidence_to_float x))))

/-! ### Indicator engine — `src/utils/indicators.py`

The pandas pipelines are evaluated only at `iloc[-1]`; each model computes
exactly that last value.  A rolling mean of window `p` at the last index is
the mean of the last `p` elements; `ewm(span=s, adjust=False).mean()` is the
fold `y₀ = x₀`, `yᵢ = α·xᵢ + (1-α)·yᵢ₋₁` with `α = 2/(s+1)`. -/

/-- Python float results that may be NaN (`calculate_rsi` on a no-movement
window returns `float('nan')`, not `None`). -/
inductive PyFloat where
  | nan
  | val (q : ℚ)
deriving DecidableEq

/-- The last `p` elements of a list (the rolling window ending at the last
index). -/
def lastWindow (l : List ℚ) (p : ℕ) : List ℚ :=
  l.drop (l.length - p)

/-- `prices.diff()` without its leading NaN: element `i` is
`prices[i+1] - prices[i]`. -/
def diffList (prices : List ℚ) : List ℚ :=
  List.zipWith (· - ·) (prices.drop 1) prices

/-- Rolling mean (window `period`) of the clipped gains
`delta.where(delta > 0, 0)`, at the last index.  With
`prices.length ≥ period + 1` the window contains only true differences
(the leading NaN of `diff()`, zeroed by `.where`, lies outside it). -/
def gainAvg (prices : List ℚ) (period : ℕ) : ℚ :=
  ((lastWindow (diffList prices) period).map (fun d => if 0 < d then d else 0)).sum
    / (period : ℚ)

/-- Rolling mean (window `period`) of the clipped losses
`(-delta).where(delta < 0, 0)`, at the last index. -/
def lossAvg (prices : List ℚ) (period : ℕ) : ℚ :=
  ((lastWindow (diffList prices) period).map (fun d => if d < 0 then -d else 0)).sum
    / (period : ℚ)

/-- `calculate_rsi` (indicators.py lines 11–36).  Inputs shorter than
`period + 1` return `None`.  Otherwise `rs = gain/loss` and
`rsi = 100 - 100/(1+rs)` in IEEE arithmetic: `loss = 0` with `gain > 0`
gives `rs = inf` and `rsi = 100` exactly; `loss = 0` with `gain = 0` gives
`rs = nan` and `rsi = nan` (numpy emits a warning, not an exception, so the
`except` branch is not taken).  `period = 0` makes `rolling(0)` raise
`ValueError`, caught by the `except` branch which returns `None`. -/
def calculate_rsi (prices : List ℚ) (period : ℕ) : Option PyFloat :=
  if prices.length < period + 1 then none
  else if period = 0 then none
  else
    let gain := gainAvg prices period
    let loss := lossAvg prices period
    if loss = 0 then
      if gain = 0 then some .nan else some (.val 100)
    else some (.val (100 - 100 / (1 + gain / loss)))

/-- Tail of the `ewm(adjust=False)` fold: `y` is the accumulator. -/
def ewmaFrom (a : ℚ) (y : ℚ) : List ℚ → List ℚ
  | [] => [y]
  | x :: xs => y :: ewmaFrom a (a * x + (1 - a) * y) xs

/-- The full series `prices.ewm(span, adjust=False).mean()` with
`a = 2/(span+1)`. -/
def ewmaList (a : ℚ) : List ℚ → List ℚ
  | [] => []
  | x :: xs => ewmaFrom a x xs

/-- `calculate_ema` (indicators.py lines 67–86).  `getLast? = none` only
when the input is empty, where Python's `iloc[-1]` raises IndexError and
the `except` branch returns `None`. -/
def calculate_ema (prices : List ℚ) (period : ℕ) : Option ℚ :=
  if prices.length < period then none
  else (ewmaList (2 / ((period : ℚ) + 1)) prices).getLast?

/-- `calculate_macd` (indicators.py lines 39–64): guard `len < slow+signal`,
then `macd = ema_fast − ema_slow` elementwise, `signal = ewm(macd)`,
`histogram = macd − signal`, each reported at the last index. -/
def calculate_macd (prices : List ℚ) (fast slow signal : ℕ) :
    Option ℚ × Option ℚ × Option ℚ :=
  if prices.length < slow + signal then (none, none, none)
  else
    let emaF := ewmaList (2 / ((fast : ℚ) + 1)) prices
    let emaS := ewmaList (2 / ((slow : ℚ) + 1)) prices
    let macdLine := List.zipWith (· - ·) emaF emaS
    let signalLine := ewmaList (2 / ((signal : ℚ) + 1)) macdLine
    (macdLine.getLast?, signalLine.getLast?,
      (List.zipWith (· - ·) macdLine signalLine).getLast?)

/-- `calculate_sma` (indicators.py lines 144–163): rolling mean of the last
`period` prices.  `period = 0` makes `rolling(0)` raise, so the `except`
branch returns `None`. -/
def calculate_sma (prices : List ℚ) (period : ℕ) : Option ℚ :=
  if prices.length < period then none
  else if period = 0 then none
  else some ((lastWindow prices period).sum / (period : ℚ))

/-- Sample variance (pandas `std` default `ddof=1`) of a window.  The
program only ever uses window 20, where `w.length - 1 = 19 ≠ 0`; for a
window of length ≤ 1 pandas would yield NaN while this rational model
yields 0 — that case is unreachable from the embedded callers. -/
def sampleVar (w : List ℚ) : ℚ :=
  let m := w.sum / (w.length : ℚ)
  (w.map (fun x => (x - m) ^ 2)).sum / ((w.length : ℚ) - 1)

/-- `calculate_bollinger_bands` (indicators.py lines 166–192).  The float
square root applied to the rolling variance is kept abstract as `sqrtFn`
(everything proved below holds for every `sqrtFn`); `middle = SMA`,
`upper/lower = middle ± num_std · std`. -/
def calculate_bollinger_bands (sqrtFn : ℚ → ℚ) (prices : List ℚ)
    (period : ℕ) (num_std : ℚ) : Option ℚ × Option ℚ × Option ℚ :=
  if prices.length < period then (none, none, none)
  else if period = 0 then (none, none, none)
  else
    let w := lastWindow prices period
    let m := w.sum / (period : ℚ)
    let sd := sqrtFn (sampleVar w)
    (some m, some (m + num_std * sd), some (m - num_std * sd))

/-- True ranges from index 1 on: `max(high−low, |high−prev_close|,
|low−prev_close|)`.  Index 0 (whose `shift(1)` terms are NaN, so pandas
keeps `high₀−low₀`) never lies inside the last window because the guard
forces `length ≥ period + 1`. -/
def trueRanges : List ℚ → List ℚ → List ℚ → List ℚ
  | h :: hs, l :: ls, c :: cs =>
      max (h - l) (max |h - c| |l - c|) :: trueRanges hs ls cs
  | _, _, _ => []

/-- `calculate_atr` (indicators.py lines 89–117): rolling mean of the true
range over `period`, at the last index. -/
def calculate_atr (high low close : List ℚ) (period : ℕ) : Option ℚ :=
  if high.length < period + 1 then none
  else if period = 0 then none
  else
    let trs := trueRanges (high.drop 1) (low.drop 1) close
    some ((lastWindow trs period).sum / (period : ℚ))

/-- `calculate_volume_ratio` (indicators.py lines 120–129): percentage of
current volume against the average, with the divide-by-zero guard
returning the neutral 100. -/
def calculate_volume_ratio (current_volume avg_volume : ℚ) : ℚ :=
  if avg_volume = 0 then 100
  else current_volume / avg_volume * 100

/-! ### Market data — `src/data/market_data.py` -/

/-- The numeric columns of the kline DataFrame (`open` is unused by
`_calculate_indicators`). -/
structure KlineDf where
  close : List ℚ
  high : List ℚ
  low : List ℚ
  volume : List ℚ

/-- One timeframe's indicator dictionary as built by
`_calculate_indicators`.  `rsi` is a `PyFloat` because `calculate_rsi` can
return NaN, which is not `None` and therefore survives the substitution.
The two volume keys exist only when `len(volume) ≥ 20`. -/
structure TfIndicators where
  rsi : PyFloat
  macd : ℚ
  macd_signal : ℚ
  macd_histogram : ℚ
  ema_20 : ℚ
  ema_50 : ℚ
  sma_20 : ℚ
  sma_50 : ℚ
  bollinger_middle : ℚ
  bollinger_upper : ℚ
  bollinger_lower : ℚ
  atr_14 : ℚ
  volume_ratio_pct : Option ℚ
  avg_volume : Option ℚ
deriving DecidableEq

/-- `float(close.iloc[-1]) if len(close) > 0 else 0.0`. -/
def currentPrice (close : List ℚ) : ℚ :=
  (close.getLast?).getD 0

/-- `MarketDataManager._calculate_indicators` (market_data.py lines
85–146): every indicator that reports "insufficient data" (`None`) is
replaced by its documented neutral default — RSI→50, MACD fields→0,
EMA/SMA→current price, Bollinger middle→current price,
upper/lower→current price ×1.02/×0.98, ATR→2% of current price. -/
def calculate_indicators (sqrtFn : ℚ → ℚ) (df : KlineDf) : TfIndicators :=
  let close := df.close
  let cp := currentPrice close
  let rsi := calculate_rsi close 14
  let macd3 := calculate_macd close 12 26 9
  let ema20 := if 20 ≤ close.length then calculate_ema close 20 else none
  let ema50 := if 50 ≤ close.length then calculate_ema close 50 else none
  let sma20 := if 20 ≤ close.length then calculate_sma close 20 else none
  let sma50 := if 50 ≤ close.length then calculate_sma close 50 else none
  let bb := calculate_bollinger_bands sqrtFn close 20 2
  let atr := calculate_atr df.high df.low close 14
  { rsi := rsi.getD (.val 50)
    macd := macd3.1.getD 0
    macd_signal := macd3.2.1.getD 0
    macd_histogram := macd3.2.2.getD 0
    ema_20 := ema20.getD cp
    ema_50 := ema50.getD cp
    sma_20 := sma20.getD cp
    sma_50 := sma50.getD cp
    bollinger_middle := bb.1.getD cp
    bollinger_upper := bb.2.1.getD (cp * (102/100))
    bollinger_lower := bb.2.2.getD (cp * (98/100))
    atr_14 := atr.getD (cp * (2/100))
    volume_ratio_pct :=
      if 20 ≤ df.volume.length then
        some (calculate_volume_ratio ((df.volume.getLast?).getD 0)
          ((lastWindow df.volume 20).sum / 20))
      else none
    avg_volume :=
      if 20 ≤ df.volume.length then some ((lastWindow df.volume 20).sum / 20)
      else none }

/-! ### Account data — `src/data/account_data.py`

The raw Binance account payload is a dict whose balance fields may be
absent (or null — both modelled as `none`); `float(account.get(k, 0) or 0)`
is `Option.getD 0`. -/

structure RawAccount where
  totalWalletBalance : Option ℚ
  totalMarginBalance : Option ℚ
  totalCrossWalletBalance : Option ℚ
  availableBalance : Option ℚ
  walletBalance : Option ℚ
  totalInitialMargin : Option ℚ
  totalUnrealizedProfit : Option ℚ
  updateTime : ℕ
deriving DecidableEq

/-- `float(account.get(key, 0) or 0)`. -/
def fget (v : Option ℚ) : ℚ := v.getD 0

/-- The fallback loop in `get_account_summary` (account_data.py lines
48–55): when the primary `totalWalletBalance` reads 0, scan
`totalMarginBalance → totalCrossWalletBalance → availableBalance →
walletBalance` and take the first strictly positive value (a missing,
null, zero, or negative field fails the `if val and float(val) > 0`
test). -/
def resolve_total_balance (a : RawAccount) : ℚ :=
  let primary := fget a.totalWalletBalance
  if primary = 0 then
    match ([fget a.totalMarginBalance, fget a.totalCrossWalletBalance,
            fget a.availableBalance, fget a.walletBalance].find?
            (fun v => 0 < v)) with
    | some v => v
    | none => 0
  else primary

/-- `AccountDataManager._calculate_margin_ratio` (account_data.py lines
73–84): note it reads the *raw* `totalWalletBalance`, not the
fallback-resolved total balance. -/
def calculate_margin_ratio_pct (a : RawAccount) : ℚ :=
  let total_balance := fget a.totalWalletBalance
  if total_balance = 0 then 0
  else fget a.totalInitialMargin / total_balance * 100

/-- The summary dict returned by `get_account_summary` (the `raw_account`
debugging key is omitted). -/
structure AccountSummary where
  total_balance : ℚ
  available_balance : ℚ
  used_margin : ℚ
  total_unrealized_pnl : ℚ
  equity : ℚ
  margin_ratio_pct : ℚ
  update_time : ℕ
deriving DecidableEq

/-- `AccountDataManager.get_account_summary` (account_data.py lines
21–66), for a non-empty account payload (an empty payload returns `None`
before any field is read).  `equity` is
`float(account.get('totalMarginBalance', total_balance) or total_balance)`:
the resolved total balance when the field is absent, null, or zero. -/
def get_account_summary (a : RawAccount) : AccountSummary :=
  let tb := resolve_total_balance a
  { total_balance := tb
    available_balance := fget a.availableBalance
    used_margin := fget a.totalInitialMargin
    total_unrealized_pnl := fget a.totalUnrealizedProfit
    equity :=
      match a.totalMarginBalance with
      | some v => if v = 0 then tb else v
      | none => tb
    margin_ratio_pct := calculate_margin_ratio_pct a
    update_time := a.updateTime }

/-! ### Execution — `src/trading/trade_executor.py` and `src/main.py`

Exchange interactions are modelled as a trace of `Eff` events, emitted in
program order.  Read-only calls (`getAccount`, `getPosition`) and the pure
risk check are recorded alongside the capital-affecting calls so that
"no exchange call at all" and "no order call" are both expressible. -/

inductive Side where
  | BUY
  | SELL
deriving DecidableEq

inductive Eff where
  | getAccount
  | getPosition (sym : String)
  | riskCheck (sym : String) (qty price equity avail : ℚ)
  | changeLeverage (sym : String) (lev : ℤ)
  | marketOrder (sym : String) (side : Side) (qty : ℚ)
  | setTpSl (sym : String) (side : Side) (qty tp sl : ℚ)
  | cancelAll (sym : String)
deriving DecidableEq

/-- Capital-affecting exchange calls (orders, order cancellation, leverage
changes), as opposed to read-only queries and the local risk check. -/
def isOrderEff : Eff → Bool
  | .changeLeverage _ _ => true
  | .marketOrder _ _ _ => true
  | .setTpSl _ _ _ _ _ => true
  | .cancelAll _ => true
  | _ => false

/-- `TradeExecutor.open_long` (trade_executor.py lines 31–73): leverage is
set first when `leverage and leverage > 1` (best-effort), then the BUY
market order, then — when a take-profit or stop-loss price is truthy
(nonzero) — one combined TP/SL placement. -/
def open_long_exec (sym : String) (qty : ℚ) (lev : ℤ) (tp sl : ℚ) :
    List Eff :=
  (if 1 < lev then [.changeLeverage sym lev] else []) ++
  [.marketOrder sym .BUY qty] ++
  (if tp ≠ 0 ∨ sl ≠ 0 then [.setTpSl sym .BUY qty tp sl] else [])

/-- `TradeExecutor.open_short` (trade_executor.py lines 77–116): as
`open_long` with a SELL market order. -/
def open_short_exec (sym : String) (qty : ℚ) (lev : ℤ) (tp sl : ℚ) :
    List Eff :=
  (if 1 < lev then [.changeLeverage sym lev] else []) ++
  [.marketOrder sym .SELL qty] ++
  (if tp ≠ 0 ∨ sl ≠ 0 then [.setTpSl sym .SELL qty tp sl] else [])

/-- `TradeExecutor.close_position` (trade_executor.py lines 122–167).
Input: the raw `client.get_position` payload — `none` when falsy,
`some none` when `positionAmt` fails to parse as a float, `some (some amt)`
otherwise (a missing `positionAmt` key reads as 0).  Output: the emitted
exchange calls and the close order (side, quantity) if one was placed
(`none` models Python's `return None`). -/
def close_position (sym : String) (rawPos : Option (Option ℚ)) :
    List Eff × Option (Side × ℚ) :=
  match rawPos with
  | none => ([], none)
  | some none => ([], none)
  | some (some amt) =>
    if amt = 0 then ([], none)
    else
      let amount := |amt|
      let side : Side := if 0 < amt then .SELL else .BUY
      ([.cancelAll sym, .marketOrder sym side amount], some (side, amount))

/-- The decision dict fields read by `TradingBot.execute_decision` and its
open helpers.  `take_profit_percent` / `stop_loss_percent` are read with
`decision.get(_, 5.0)` / `decision.get(_, -2.0)`, hence optional. -/
structure Decision where
  action : String
  confidence : ConfVal
  leverage : ℤ
  position_percent : ℚ
  take_profit_percent : Option ℚ
  stop_loss_percent : Option ℚ
deriving DecidableEq

/-- The collaborator state one `execute_decision` call observes:
the account summary's equity (`none` when the summary is unavailable),
the realtime price (`0` when missing), whether
`position_data.get_current_position` reports an existing position, the
risk-gate verdict, and the raw position payload the close path reads. -/
structure ExecEnv where
  equity : Option ℚ
  price : ℚ
  hasPosition : Bool
  riskOk : Bool
  rawPositionAmt : Option (Option ℚ)
deriving DecidableEq

/-- The order quantity computed by `_open_long` / `_open_short`
(main.py lines 277–279): `equity × position_percent/100 / price` —
leverage does not enter. -/
def open_quantity (equity position_percent price : ℚ) : ℚ :=
  equity * (position_percent / 100) / price

/-- `TradingBot._open_long` (main.py lines 262–315): equity guard →
position guard → quantity computation and guard → risk check →
TP/SL prices (`price·(1+tp%/100)`, `price·(1+sl%/100)`) → executor. -/
def bot_open_long (sym : String) (d : Decision) (equity price : ℚ)
    (hasPos riskOk : Bool) : List Eff :=
  if equity ≤ 0 then []
  else
    .getPosition sym ::
    (if hasPos then []
     else
       let qty := open_quantity equity d.position_percent price
       if qty ≤ 0 then []
       else
         .riskCheck sym qty price equity equity ::
         (if riskOk then
            let tpPct := d.take_profit_percent.getD 5
            let slPct := d.stop_loss_percent.getD (-2)
            open_long_exec sym qty d.leverage
              (price * (1 + tpPct / 100)) (price * (1 + slPct / 100))
          else []))

/-- `TradingBot._open_short` (main.py lines 317–370): as `_open_long`, but
the short take-profit is below the price (`price·(1−tp%/100)`) and the
stop-loss above it (`price·(1+|sl%|/100)`). -/
def bot_open_short (sym : String) (d : Decision) (equity price : ℚ)
    (hasPos riskOk : Bool) : List Eff :=
  if equity ≤ 0 then []
  else
    .getPosition sym ::
    (if hasPos then []
     else
       let qty := open_quantity equity d.position_percent price
       if qty ≤ 0 then []
       else
         .riskCheck sym qty price equity equity ::
         (if riskOk then
            let tpPct := d.take_profit_percent.getD 5
            let slPct := d.stop_loss_percent.getD (-2)
            open_short_exec sym qty d.leverage
              (price * (1 - tpPct / 100)) (price * (1 + |slPct| / 100))
          else []))

/-- `TradingBot.execute_decision` (main.py lines 215–260): confidence is
normalised by `convert_confidence_to_float`; when it is below 0.5 and the
action is not CLOSE the method returns immediately — before the account
fetch, the risk check, and any exchange call.  Otherwise the account
summary is fetched, the price checked, and the action dispatched
(unknown actions and HOLD do nothing further).  The part after the
account fetch is split into `execute_decision_dispatch`, matching on the
fetched summary's equity. -/
def execute_decision_dispatch (sym : String) (d : Decision) (env : ExecEnv) :
    Option ℚ → List Eff
  | none => []
  | some equity =>
    if env.price = 0 then []
    else if d.action = "BUY_OPEN" then
      bot_open_long sym d equity env.price env.hasPosition env.riskOk
    else if d.action = "SELL_OPEN" then
      bot_open_short sym d equity env.price env.hasPosition env.riskOk
    else if d.action = "CLOSE" then (close_position sym env.rawPositionAmt).1
    else []

def execute_decision (sym : String) (d : Decision) (env : ExecEnv) :
    List Eff :=
  let conf := convert_confidence_to_float d.confidence
  if conf < 1/2 ∧ d.action ≠ "CLOSE" then []
  else .getAccount :: execute_decision_dispatch sym d env env.equity

/-! ### Decision history — `src/main.py` -/

/-- The record appended by `TradingBot.save_decision` (main.py lines
381–397).  The ISO timestamp is abstracted to a number. -/
structure DecisionRec where
  timestamp : ℕ
  symbol : String
  action : String
  confidence : ConfVal
  leverage : ℤ
  position_percent : ℚ
  reason : String
  price : ℚ
deriving DecidableEq

/-- `TradingBot.save_decision`: append, then keep only the last 100
records (`self.decision_history[-100:]`). -/
def save_decision (history : List DecisionRec) (r : DecisionRec) :
    List DecisionRec :=
  let h := history ++ [r]
  if 100 < h.length then h.drop (h.length - 100) else h

/-- The effect of one `TradingBot.run_cycle` (main.py lines 399–451) on
`self.decision_history`.  With more than one configured symbol the batch
branch runs, which calls `execute_decision` but never `save_decision`;
with at most one symbol the per-symbol branch saves each decision.
`decideFor` abstracts the AI analysis producing the record for a symbol. -/
def run_cycle_history (symbols : List String)
    (decideFor : String → DecisionRec) (history : List DecisionRec) :
    List DecisionRec :=
  if 1 < symbols.length then history
  else symbols.foldl (fun acc s => save_decision acc (decideFor s)) history

/-! ## Theorems -/

/-- Applying `to_float ∘ to_string` to any number lands on the value of the
bucket the number falls in. -/
theorem roundTrip_num_eq_bucket (v : ℚ) :
    convert_confidence_to_float (.str (convert_confidence_to_string (.num v)))
      = confidenceBucket v := by
  unfold confidenceBucket
  by_cases h1 : (3 : ℚ)/4 ≤ v
  · rw [show convert_confidence_to_string (.num v) = "HIGH" by
      simp [convert_confidence_to_string, h1], if_pos h1]
    rfl
  · by_cases h2 : (11 : ℚ)/20 ≤ v
    · rw [show convert_confidence_to_string (.num v) = "MEDIUM" by
        simp [convert_confidence_to_string, h1, h2], if_neg h1, if_pos h2]
      rfl
    · rw [show convert_confidence_to_string (.num v) = "LOW" by
        simp [convert_confidence_to_string, h1, h2], if_neg h1, if_neg h2]
      rfl

/-- The bucket map is idempotent. -/
theorem confidenceBucket_idem (v : ℚ) :
    confidenceBucket (confidenceBucket v) = confidenceBucket v := by
  by_cases h1 : (3 : ℚ)/4 ≤ v
  · rw [show confidenceBucket v = 4/5 by simp [confidenceBucket, h1]]
    norm_num [confidenceBucket]
  · by_cases h2 : (11 : ℚ)/20 ≤ v
    · rw [show confidenceBucket v = 3/5 by simp [confidenceBucket, h1, h2]]
      norm_num [confidenceBucket]
    · rw [show confidenceBucket v = 2/5 by simp [confidenceBucket, h1, h2]]
      norm_num [confidenceBucket]

/-- Claim C1: confidence conversion is total (the embedding is a total
function on string and numeric inputs) and the composite
`to_float (to_string (to_float x))` equals the value of the bucket that
`to_float x` falls in; `HIGH`/`MEDIUM`/`LOW` map to 0.8/0.6/0.4 under
`to_float`, any out-of-vocabulary string maps to 0.5, and the round trip
is idempotent. -/
theorem claim_C1 :
    (∀ x : ConfVal,
      confidenceRoundTrip x = confidenceBucket (convert_confidence_to_float x)) ∧
    convert_confidence_to_float (.str "HIGH") = 4/5 ∧
    convert_confidence_to_float (.str "MEDIUM") = 3/5 ∧
    convert_confidence_to_float (.str "LOW") = 2/5 ∧
    (∀ s : String, normalizeConf s ≠ "HIGH" → normalizeConf s ≠ "MEDIUM" →
      normalizeConf s ≠ "LOW" → convert_confidence_to_float (.str s) = 1/2) ∧
    (∀ x : ConfVal,
      confidenceRoundTrip (.num (confidenceRoundTrip x)) = confidenceRoundTrip x) := by
  refine ⟨fun x => roundTrip_num_eq_bucket _, rfl, rfl, rfl,
    ?_, fun x => ?_⟩
  · intro s h1 h2 h3
    simp [convert_confidence_to_float, h1, h2, h3]
  · have h1 : confidenceRoundTrip x =
        confidenceBucket (convert_confidence_to_float x) :=
      roundTrip_num_eq_bucket _
    have h2 : confidenceRoundTrip (.num (confidenceRoundTrip x)) =
        confidenceBucket (confidenceRoundTrip x) :=
      roundTrip_num_eq_bucket _
    rw [h2, h1, confidenceBucket_idem]

/-- Witness for C1: the out-of-vocabulary string `"maybe"` converts to 0.5
and round-trips to the value of its bucket. -/
theorem claim_C1_witness :
    convert_confidence_to_float (.str "maybe") = 1/2 ∧
    confidenceRoundTrip (.str "maybe") =
      confidenceBucket (convert_confidence_to_float (.str "maybe")) :=
  ⟨claim_C1.2.2.2.2.1 "maybe" (by decide) (by decide) (by decide),
   claim_C1.1 (.str "maybe")⟩

/-- The difference series of a constant price list is constantly zero. -/
theorem diffList_replicate (n : ℕ) (x : ℚ) :
    diffList (List.replicate n x) = List.replicate (n - 1) 0 := by
  unfold diffList
  rw [List.drop_replicate, List.zipWith_replicate]
  have h : min (n - 1) n = n - 1 := by omega
  simp [h]

/-- A rolling average of clipped gains is nonnegative. -/
theorem gainAvg_nonneg (prices : List ℚ) (period : ℕ) :
    0 ≤ gainAvg prices period := by
  unfold gainAvg
  apply div_nonneg _ (by positivity)
  apply List.sum_nonneg
  intro x hx
  simp only [List.mem_map] at hx
  obtain ⟨d, -, rfl⟩ := hx
  split_ifs with h
  · exact le_of_lt h
  · exact le_refl 0

/-- A rolling average of clipped losses is nonnegative. -/
theorem lossAvg_nonneg (prices : List ℚ) (period : ℕ) :
    0 ≤ lossAvg prices period := by
  unfold lossAvg
  apply div_nonneg _ (by positivity)
  apply List.sum_nonneg
  intro x hx
  simp only [List.mem_map] at hx
  obtain ⟨d, -, rfl⟩ := hx
  split_ifs with h
  · linarith
  · exact le_refl 0

/-- Counterexample to claim C2 as stated: a constant price series of
length `period + 1 = 15` makes both rolling averages zero, `rs = 0/0`
is NaN in IEEE arithmetic, and `calculate_rsi` returns NaN — not a value
in `[0, 100]` and in particular not 50. -/
theorem claim_C2_counterexample :
    calculate_rsi (List.replicate 15 (100 : ℚ)) 14 = some .nan ∧
    ∀ q : ℚ, calculate_rsi (List.replicate 15 (100 : ℚ)) 14 ≠ some (.val q) := by
  have hg : gainAvg (List.replicate 15 (100 : ℚ)) 14 = 0 := by
    unfold gainAvg lastWindow
    rw [diffList_replicate]
    simp
  have hl : lossAvg (List.replicate 15 (100 : ℚ)) 14 = 0 := by
    unfold lossAvg lastWindow
    rw [diffList_replicate]
    simp
  have h : calculate_rsi (List.replicate 15 (100 : ℚ)) 14 = some .nan := by
    simp only [calculate_rsi, hg, hl]
    norm_num
  refine ⟨h, fun q hq => ?_⟩
  rw [h] at hq
  injection hq with hq'
  exact PyFloat.noConfusion hq'

/-- Claim C2, amended: for every price series of length at least
`period + 1` the result is: NaN when the window shows neither gains nor
losses (the `0/0` case — a constant series gives NaN, not 50); exactly 100
when the average loss is zero but the average gain is not (saturation);
and a value in `[0, 100)` whenever the average loss is nonzero. -/
theorem claim_C2_amended :
    ∀ (prices : List ℚ) (period : ℕ), 0 < period →
      period + 1 ≤ prices.length →
      (lossAvg prices period = 0 → gainAvg prices period = 0 →
        calculate_rsi prices period = some .nan) ∧
      (lossAvg prices period = 0 → gainAvg prices period ≠ 0 →
        calculate_rsi prices period = some (.val 100)) ∧
      (lossAvg prices period ≠ 0 →
        ∃ q : ℚ, calculate_rsi prices period = some (.val q) ∧
          0 ≤ q ∧ q < 100) := by
  intro prices period hp hl
  have hg1 : ¬ prices.length < period + 1 := by omega
  have hg2 : ¬ period = 0 := by omega
  refine ⟨fun h0 h0' => ?_, fun h0 h0' => ?_, fun h0 => ?_⟩
  · simp [calculate_rsi, hg1, hg2, h0, h0']
  · simp [calculate_rsi, hg1, hg2, h0, h0']
  · have hlpos : 0 < lossAvg prices period :=
      lt_of_le_of_ne (lossAvg_nonneg prices period) (Ne.symm h0)
    have hrs : 0 ≤ gainAvg prices period / lossAvg prices period :=
      div_nonneg (gainAvg_nonneg prices period) hlpos.le
    have hden : (0 : ℚ) < 1 + gainAvg prices period / lossAvg prices period := by
      linarith
    refine ⟨100 - 100 / (1 + gainAvg prices period / lossAvg prices period),
      by simp [calculate_rsi, hg1, hg2, h0], ?_, ?_⟩
    · have : 100 / (1 + gainAvg prices period / lossAvg prices period) ≤ 100 := by
        rw [div_le_iff₀ hden]
        nlinarith
      linarith
    · have : 0 < 100 / (1 + gainAvg prices period / lossAvg prices period) := by
        positivity
      linarith

/-- Witness for the amended C2: a strictly increasing 15-price series
(all-gain window, zero average loss) saturates at exactly 100. -/
theorem claim_C2_amended_witness :
    calculate_rsi
      [(0 : ℚ), 1, 2, 3, 4, 5, 6, 7, 8, 9, 10, 11, 12, 13, 14] 14 =
      some (.val 100) :=
  (claim_C2_amended [(0 : ℚ), 1, 2, 3, 4, 5, 6, 7, 8, 9, 10, 11, 12, 13, 14]
    14 (by norm_num) (by norm_num)).2.1
    (by norm_num [lossAvg, lastWindow, diffList])
    (by norm_num [gainAvg, lastWindow, diffList])

/-- Claim C3: every indicator guards its minimum window (RSI `period+1`,
MACD `slow+signal`, EMA/SMA `period`, Bollinger `period`, ATR `period+1`)
by returning `None` instead of raising, and `_calculate_indicators`
substitutes exactly the documented neutral defaults: RSI→50,
MACD/signal/histogram→0, EMA/SMA→current price, Bollinger
upper/lower→current price ×1.02/×0.98, ATR→2% of current price. -/
theorem claim_C3 :
    ∀ (sqrtFn : ℚ → ℚ) (df : KlineDf),
      (df.close.length < 15 →
        calculate_rsi df.close 14 = none ∧
        (calculate_indicators sqrtFn df).rsi = .val 50) ∧
      (df.close.length < 35 →
        calculate_macd df.close 12 26 9 = (none, none, none) ∧
        (calculate_indicators sqrtFn df).macd = 0 ∧
        (calculate_indicators sqrtFn df).macd_signal = 0 ∧
        (calculate_indicators sqrtFn df).macd_histogram = 0) ∧
      (df.close.length < 20 →
        calculate_ema df.close 20 = none ∧
        calculate_sma df.close 20 = none ∧
        calculate_bollinger_bands sqrtFn df.close 20 2 = (none, none, none) ∧
        (calculate_indicators sqrtFn df).ema_20 = currentPrice df.close ∧
        (calculate_indicators sqrtFn df).sma_20 = currentPrice df.close ∧
        (calculate_indicators sqrtFn df).bollinger_upper =
          currentPrice df.close * (102/100) ∧
        (calculate_indicators sqrtFn df).bollinger_lower =
          currentPrice df.close * (98/100)) ∧
      (df.close.length < 50 →
        (calculate_indicators sqrtFn df).ema_50 = currentPrice df.close ∧
        (calculate_indicators sqrtFn df).sma_50 = currentPrice df.close) ∧
      (df.high.length < 15 →
        calculate_atr df.high df.low df.close 14 = none ∧
        (calculate_indicators sqrtFn df).atr_14 =
          currentPrice df.close * (2/100)) := by
  intro sqrtFn df
  refine ⟨fun h => ?_, fun h => ?_, fun h => ?_, fun h => ?_, fun h => ?_⟩
  · have hr : calculate_rsi df.close 14 = none := by
      unfold calculate_rsi
      rw [if_pos (by omega)]
    exact ⟨hr, by simp [calculate_indicators, hr]⟩
  · have hm : calculate_macd df.close 12 26 9 = (none, none, none) := by
      unfold calculate_macd
      rw [if_pos (by omega)]
    exact ⟨hm, by simp [calculate_indicators, hm],
      by simp [calculate_indicators, hm], by simp [calculate_indicators, hm]⟩
  · have he : calculate_ema df.close 20 = none := by
      unfold calculate_ema
      rw [if_pos (by omega)]
    have hs : calculate_sma df.close 20 = none := by
      unfold calculate_sma
      rw [if_pos (by omega)]
    have hb : calculate_bollinger_bands sqrtFn df.close 20 2 =
        (none, none, none) := by
      unfold calculate_bollinger_bands
      rw [if_pos (by omega)]
    have h20 : ¬ 20 ≤ df.close.length := by omega
    exact ⟨he, hs, hb, by simp [calculate_indicators, h20],
      by simp [calculate_indicators, h20], by simp [calculate_indicators, hb],
      by simp [calculate_indicators, hb]⟩
  · have h50 : ¬ 50 ≤ df.close.length := by omega
    exact ⟨by simp [calculate_indicators, h50],
      by simp [calculate_indicators, h50]⟩
  · have ha : calculate_atr df.high df.low df.close 14 = none := by
      unfold calculate_atr
      rw [if_pos (by omega)]
    exact ⟨ha, by simp [calculate_indicators, ha]⟩

/-- Witness for C3: a one-candle DataFrame (price 100) gets every neutral
default — RSI 50, MACD 0, EMA/SMA 100, Bollinger 102/98, ATR 2. -/
theorem claim_C3_witness :
    calculate_rsi [(100 : ℚ)] 14 = none ∧
    (calculate_indicators (fun _ => 0)
      ⟨[(100 : ℚ)], [100], [100], [100]⟩).rsi = .val 50 ∧
    (calculate_indicators (fun _ => 0)
      ⟨[(100 : ℚ)], [100], [100], [100]⟩).bollinger_upper = 100 * (102/100) ∧
    (calculate_indicators (fun _ => 0)
      ⟨[(100 : ℚ)], [100], [100], [100]⟩).atr_14 = 100 * (2/100) := by
  have h1 := (claim_C3 (fun _ => 0) ⟨[(100 : ℚ)], [100], [100], [100]⟩).1
    (by norm_num)
  have h2 := (claim_C3 (fun _ => 0) ⟨[(100 : ℚ)], [100], [100], [100]⟩).2.2.1
    (by norm_num)
  have h3 := (claim_C3 (fun _ => 0)
    ⟨[(100 : ℚ)], [100], [100], [100]⟩).2.2.2.2 (by norm_num)
  exact ⟨h1.1, h1.2, h2.2.2.2.2.2.1, h3.2⟩

/-- Counterexample to claim C4 as stated: an account whose raw
`totalWalletBalance` is 0 but whose `totalMarginBalance` is 500 (with
`totalInitialMargin` 100) resolves the summary's `total_balance` to 500
via the fallback chain, yet reports a margin ratio of 0 — not
`used_margin / total_balance × 100 = 20`. -/
theorem claim_C4_counterexample :
    (get_account_summary
      ⟨some 0, some 500, none, none, none, some 100, none, 0⟩).total_balance
        = 500 ∧
    (get_account_summary
      ⟨some 0, some 500, none, none, none, some 100, none, 0⟩).used_margin
        = 100 ∧
    (get_account_summary
      ⟨some 0, some 500, none, none, none, some 100, none, 0⟩).margin_ratio_pct
        = 0 ∧
    (100 : ℚ) / 500 * 100 ≠ 0 := by
  refine ⟨?_, rfl, ?_, by norm_num⟩
  · show resolve_total_balance
      ⟨some 0, some 500, none, none, none, some 100, none, 0⟩ = 500
    norm_num [resolve_total_balance, fget, List.find?]
  · show calculate_margin_ratio_pct
      ⟨some 0, some 500, none, none, none, some 100, none, 0⟩ = 0
    norm_num [calculate_margin_ratio_pct, fget]

/-- Claim C4, amended: the reported margin ratio is
`used_margin / totalWalletBalance × 100` computed from the *raw primary*
field, and 0 whenever that raw field reads 0 — even when the fallback
chain resolves the summary's `total_balance` to a positive alternative.
When the primary is nonzero no fallback fires, `total_balance` equals the
primary, and the claimed equation holds. -/
theorem claim_C4_amended :
    ∀ a : RawAccount,
      (fget a.totalWalletBalance = 0 →
        (get_account_summary a).margin_ratio_pct = 0) ∧
      (fget a.totalWalletBalance ≠ 0 →
        (get_account_summary a).total_balance = fget a.totalWalletBalance ∧
        (get_account_summary a).margin_ratio_pct =
          (get_account_summary a).used_margin /
            (get_account_summary a).total_balance * 100) := by
  intro a
  constructor
  · intro h
    show calculate_margin_ratio_pct a = 0
    simp [calculate_margin_ratio_pct, h]
  · intro h
    have htb : (get_account_summary a).total_balance =
        fget a.totalWalletBalance := by
      show resolve_total_balance a = _
      simp [resolve_total_balance, h]
    refine ⟨htb, ?_⟩
    show calculate_margin_ratio_pct a = _
    rw [htb]
    show _ = fget a.totalInitialMargin / fget a.totalWalletBalance * 100
    simp [calculate_margin_ratio_pct, h]

/-- Witness for the amended C4: with `totalWalletBalance = 1000` and
`totalInitialMargin = 100`, the summary reports total balance 1000 and
margin ratio `100 / 1000 × 100`. -/
theorem claim_C4_amended_witness :
    (get_account_summary
      ⟨some 1000, none, none, none, none, some 100, none, 0⟩).total_balance
        = fget (some 1000) ∧
    (get_account_summary
      ⟨some 1000, none, none, none, none, some 100, none, 0⟩).margin_ratio_pct =
      (get_account_summary
        ⟨some 1000, none, none, none, none, some 100, none, 0⟩).used_margin /
        (get_account_summary
          ⟨some 1000, none, none, none, none, some 100, none, 0⟩).total_balance
          * 100 :=
  (claim_C4_amended ⟨some 1000, none, none, none, none, some 100, none, 0⟩).2
    (by norm_num [fget])

/-- Market orders in an effect trace. -/
def isMarketOrderEff : Eff → Bool
  | .marketOrder _ _ _ => true
  | _ => false

/-- TP/SL placements in an effect trace. -/
def isTpSlEff : Eff → Bool
  | .setTpSl _ _ _ _ _ => true
  | _ => false

/-- Claim C5: with equity 10000, price 50000, `position_percent` 10 and any
leverage, the BUY_OPEN path submits exactly one market order of quantity
`10000 × 10/100 / 50000 = 0.02` (leverage does not enter the quantity),
and with `take_profit_percent = 5` it places the take-profit at
`50000 × (1 + 5/100) = 52500` (stop-loss `-2` % → 49000). -/
theorem claim_C5 :
    ∀ lev : ℤ,
      (execute_decision "BTCUSDT"
        ⟨"BUY_OPEN", .num (8/10), lev, 10, some 5, some (-2)⟩
        ⟨some 10000, 50000, false, true, none⟩).filter isMarketOrderEff =
        [.marketOrder "BTCUSDT" .BUY (2/100)] ∧
      (execute_decision "BTCUSDT"
        ⟨"BUY_OPEN", .num (8/10), lev, 10, some 5, some (-2)⟩
        ⟨some 10000, 50000, false, true, none⟩).filter isTpSlEff =
        [.setTpSl "BTCUSDT" .BUY (2/100) 52500 49000] ∧
      open_quantity 10000 10 50000 = 2/100 := by
  intro lev
  have hq : open_quantity 10000 10 50000 = 2/100 := by
    norm_num [open_quantity]
  have htrace : execute_decision "BTCUSDT"
      ⟨"BUY_OPEN", .num (8/10), lev, 10, some 5, some (-2)⟩
      ⟨some 10000, 50000, false, true, none⟩ =
      [.getAccount, .getPosition "BTCUSDT",
       .riskCheck "BTCUSDT" (2/100) 50000 10000 10000] ++
      (if 1 < lev then [.changeLeverage "BTCUSDT" lev] else []) ++
      [.marketOrder "BTCUSDT" .BUY (2/100),
       .setTpSl "BTCUSDT" .BUY (2/100) 52500 49000] := by
    by_cases hl : 1 < lev <;>
      norm_num [execute_decision, execute_decision_dispatch, bot_open_long,
        open_long_exec, open_quantity, convert_confidence_to_float, hl]
  rw [htrace]
  by_cases hl : 1 < lev <;>
    simp [hl, isMarketOrderEff, isTpSlEff, hq, List.filter]

/-- Claim C6: for a close request with a nonzero signed position amount,
`close_position` first cancels all pending orders for the symbol, then
submits exactly one market order for the absolute amount, on the side
opposite to the sign of the position (BUY for a short, SELL for a long). -/
theorem claim_C6 :
    ∀ (sym : String) (amt : ℚ), amt ≠ 0 →
      ∃ side : Side,
        (close_position sym (some (some amt))).1 =
          [.cancelAll sym, .marketOrder sym side |amt|] ∧
        (close_position sym (some (some amt))).2 = some (side, |amt|) ∧
        (amt < 0 → side = .BUY) ∧ (0 < amt → side = .SELL) := by
  intro sym amt h
  refine ⟨if 0 < amt then .SELL else .BUY, ?_, ?_, ?_, ?_⟩
  · simp [close_position, h]
  · simp [close_position, h]
  · intro hneg
    rw [if_neg (by linarith)]
  · intro hpos
    rw [if_pos hpos]

/-- Witness for C6: the spec scenario `position_amt = -0.01` — the close
order is a BUY of 0.01, after the cancel-all. -/
theorem claim_C6_witness :
    (close_position "BTCUSDT" (some (some (-(1/100) : ℚ)))).1 =
      [.cancelAll "BTCUSDT", .marketOrder "BTCUSDT" .BUY (1/100)] := by
  obtain ⟨side, h1, -, h3, -⟩ :=
    claim_C6 "BTCUSDT" (-(1/100) : ℚ) (by norm_num)
  rw [h3 (by norm_num)] at h1
  rw [h1]
  norm_num

/-- With a position already held, the open-long path emits only the
position read. -/
theorem mem_bot_open_long_hasPos {sym : String} {d : Decision}
    {equity price : ℚ} {riskOk : Bool} {e : Eff}
    (he : e ∈ bot_open_long sym d equity price true riskOk) :
    e = .getPosition sym := by
  unfold bot_open_long at he
  split_ifs at he <;> simp_all

theorem mem_bot_open_short_hasPos {sym : String} {d : Decision}
    {equity price : ℚ} {riskOk : Bool} {e : Eff}
    (he : e ∈ bot_open_short sym d equity price true riskOk) :
    e = .getPosition sym := by
  unfold bot_open_short at he
  split_ifs at he <;> simp_all

/-- Claim C7: a BUY_OPEN or SELL_OPEN decision on a symbol whose position
reader reports an existing position produces no capital-affecting
exchange call — only the account and position reads happen. -/
theorem claim_C7 :
    ∀ (sym : String) (d : Decision) (env : ExecEnv),
      env.hasPosition = true →
      (d.action = "BUY_OPEN" ∨ d.action = "SELL_OPEN") →
      ∀ e ∈ execute_decision sym d env, isOrderEff e = false := by
  intro sym d env hpos hact e he
  simp only [execute_decision] at he
  by_cases h1 : convert_confidence_to_float d.confidence < 1/2 ∧
      d.action ≠ "CLOSE"
  · rw [if_pos h1] at he
    simp at he
  · rw [if_neg h1] at he
    rcases List.mem_cons.mp he with rfl | he'
    · rfl
    · rcases henv : env.equity with - | equity <;> rw [henv] at he'
      · simp [execute_decision_dispatch] at he'
      · simp only [execute_decision_dispatch] at he'
        by_cases h2 : env.price = 0
        · rw [if_pos h2] at he'
          simp at he'
        · rw [if_neg h2] at he'
          rcases hact with h | h
          · rw [h] at he'
            rw [if_pos rfl, hpos] at he'
            rw [mem_bot_open_long_hasPos he']
            rfl
          · rw [h] at he'
            rw [if_neg (by simp), if_pos rfl, hpos] at he'
            rw [mem_bot_open_short_hasPos he']
            rfl

/-- Witness for C7: a concrete BUY_OPEN decision against a held position
yields a trace without any order call. -/
theorem claim_C7_witness :
    execute_decision "BTCUSDT"
      ⟨"BUY_OPEN", .num 1, 1, 10, none, none⟩
      ⟨some 10000, 50000, true, true, none⟩ =
      [.getAccount, .getPosition "BTCUSDT"] ∧
    isOrderEff (.getPosition "BTCUSDT") = false := by
  have htrace : execute_decision "BTCUSDT"
      ⟨"BUY_OPEN", .num 1, 1, 10, none, none⟩
      ⟨some 10000, 50000, true, true, none⟩ =
      [.getAccount, .getPosition "BTCUSDT"] := by
    norm_num [execute_decision, execute_decision_dispatch, bot_open_long,
      convert_confidence_to_float]
  refine ⟨htrace, ?_⟩
  exact claim_C7 "BTCUSDT" ⟨"BUY_OPEN", .num 1, 1, 10, none, none⟩
    ⟨some 10000, 50000, true, true, none⟩ rfl (Or.inl rfl)
    (.getPosition "BTCUSDT") (by rw [htrace]; simp)

/-- Claim C8: a decision whose converted confidence is below 0.5 and whose
action is not CLOSE makes `execute_decision` return before the account
fetch, the risk check, and any exchange call (empty trace); a CLOSE
decision's behaviour is entirely independent of its confidence value. -/
theorem claim_C8 :
    (∀ (sym : String) (d : Decision) (env : ExecEnv),
      convert_confidence_to_float d.confidence < 1/2 →
      d.action ≠ "CLOSE" →
      execute_decision sym d env = []) ∧
    (∀ (sym : String) (a : String) (c c' : ConfVal) (lev : ℤ) (pp : ℚ)
      (tp sl : Option ℚ) (env : ExecEnv), a = "CLOSE" →
      execute_decision sym ⟨a, c, lev, pp, tp, sl⟩ env =
        execute_decision sym ⟨a, c', lev, pp, tp, sl⟩ env) := by
  constructor
  · intro sym d env h1 h2
    simp only [execute_decision]
    rw [if_pos ⟨h1, h2⟩]
  · intro sym a c c' lev pp tp sl env ha
    subst ha
    simp only [execute_decision]
    rw [if_neg (by simp), if_neg (by simp)]
    rcases henv : env.equity with - | equity <;> rfl

/-- Witness for C8: a HOLD decision with confidence 0.1 produces the empty
trace, and two CLOSE decisions differing only in confidence (0.1 vs a
string) produce identical traces. -/
theorem claim_C8_witness :
    execute_decision "BTCUSDT"
      ⟨"HOLD", .num (1/10), 1, 10, none, none⟩
      ⟨some 10000, 50000, false, true, none⟩ = [] ∧
    execute_decision "BTCUSDT"
      ⟨"CLOSE", .num (1/10), 1, 10, none, none⟩
      ⟨some 10000, 50000, false, true, some (some 1)⟩ =
      execute_decision "BTCUSDT"
      ⟨"CLOSE", .str "LOW", 1, 10, none, none⟩
      ⟨some 10000, 50000, false, true, some (some 1)⟩ :=
  ⟨claim_C8.1 "BTCUSDT" ⟨"HOLD", .num (1/10), 1, 10, none, none⟩
      ⟨some 10000, 50000, false, true, none⟩
      (by norm_num [convert_confidence_to_float]) (by simp),
   claim_C8.2 "BTCUSDT" "CLOSE" (.num (1/10)) (.str "LOW") 1 10 none none
      ⟨some 10000, 50000, false, true, some (some 1)⟩ rfl⟩

/-- Counterexample to claim C9 as stated: a cycle over two symbols takes
the batch branch of `run_cycle`, which never calls `save_decision` — the
history stays empty, so the processed decisions are not appended. -/
theorem claim_C9_counterexample :
    run_cycle_history ["BTCUSDT", "ETHUSDT"]
      (fun s => ⟨0, s, "HOLD", .num (1/2), 1, 0, "r", 0⟩) [] = [] ∧
    (⟨0, "BTCUSDT", "HOLD", .num (1/2), 1, 0, "r", 0⟩ : DecisionRec) ∉
      run_cycle_history ["BTCUSDT", "ETHUSDT"]
        (fun s => ⟨0, s, "HOLD", .num (1/2), 1, 0, "r", 0⟩) [] := by
  have h : run_cycle_history ["BTCUSDT", "ETHUSDT"]
      (fun s => ⟨0, s, "HOLD", .num (1/2), 1, 0, "r", 0⟩) [] = [] := by
    simp [run_cycle_history]
  rw [h]
  simp

/-- Claim C9, amended: `save_decision` keeps the history bounded by 100
with oldest-first eviction (append when below the bound, drop-oldest at
the bound, newest always last), and it is invoked per symbol only in the
single-symbol branch of `run_cycle`; a multi-symbol cycle leaves the
history untouched. -/
theorem claim_C9_amended :
    (∀ (h : List DecisionRec) (r : DecisionRec),
      h.length ≤ 100 → (save_decision h r).length ≤ 100) ∧
    (∀ (h : List DecisionRec) (r : DecisionRec),
      h.length < 100 → save_decision h r = h ++ [r]) ∧
    (∀ (h : List DecisionRec) (r : DecisionRec),
      h.length = 100 → save_decision h r = h.drop 1 ++ [r]) ∧
    (∀ (s : String) (f : String → DecisionRec) (h : List DecisionRec),
      run_cycle_history [s] f h = save_decision h (f s)) ∧
    (∀ (symbols : List String) (f : String → DecisionRec)
      (h : List DecisionRec), 1 < symbols.length →
      run_cycle_history symbols f h = h) := by
  refine ⟨?_, ?_, ?_, ?_, ?_⟩
  · intro h r hle
    simp only [save_decision]
    split_ifs with hc
    · simp only [List.length_drop]
      omega
    · simp at hc ⊢
      omega
  · intro h r hlt
    simp only [save_decision]
    rw [if_neg (by simp; omega)]
  · intro h r heq
    simp only [save_decision]
    rw [if_pos (by simp [heq])]
    rw [List.drop_append_eq_append_drop]
    simp [heq]
  · intro s f h
    simp [run_cycle_history]
  · intro symbols f h hgt
    unfold run_cycle_history
    rw [if_pos hgt]

/-- Witness for the amended C9: appending to an empty history yields a
singleton; a single-symbol cycle performs exactly that save; a two-symbol
cycle leaves the history unchanged. -/
theorem claim_C9_amended_witness :
    save_decision []
      ⟨0, "BTCUSDT", "HOLD", .num (1/2), 1, 0, "r", 0⟩ =
      [⟨0, "BTCUSDT", "HOLD", .num (1/2), 1, 0, "r", 0⟩] ∧
    run_cycle_history ["BTCUSDT"]
      (fun s => ⟨0, s, "HOLD", .num (1/2), 1, 0, "r", 0⟩) [] =
      save_decision [] ⟨0, "BTCUSDT", "HOLD", .num (1/2), 1, 0, "r", 0⟩ ∧
    run_cycle_history ["BTCUSDT", "ETHUSDT"]
      (fun s => ⟨0, s, "HOLD", .num (1/2), 1, 0, "r", 0⟩)
      [⟨0, "BTCUSDT", "HOLD", .num (1/2), 1, 0, "r", 0⟩] =
      [⟨0, "BTCUSDT", "HOLD", .num (1/2), 1, 0, "r", 0⟩] :=
  ⟨by
    rw [claim_C9_amended.2.1 [] ⟨0, "BTCUSDT", "HOLD", .num (1/2), 1, 0, "r", 0⟩
      (by simp)]
    rfl,
   claim_C9_amended.2.2.2.1 "BTCUSDT"
     (fun s => ⟨0, s, "HOLD", .num (1/2), 1, 0, "r", 0⟩) [],
   claim_C9_amended.2.2.2.2 ["BTCUSDT", "ETHUSDT"]
     (fun s => ⟨0, s, "HOLD", .num (1/2), 1, 0, "r", 0⟩)
     [⟨0, "BTCUSDT", "HOLD", .num (1/2), 1, 0, "r", 0⟩] (by simp)⟩

/-- Claim C10: a close request finding no position record, an unparseable
position amount, or a zero position amount returns `None` and emits no
exchange call at all — neither the cancel-all nor a market order. -/
theorem claim_C10 :
    ∀ (sym : String) (rawPos : Option (Option ℚ)),
      (rawPos = none ∨ rawPos = some none ∨ rawPos = some (some 0)) →
      close_position sym rawPos = ([], none) := by
  intro sym rawPos h
  rcases h with h | h | h <;> subst h <;> simp [close_position]

/-- Witness for C10: closing a symbol whose reported position amount is 0
is a silent no-op. -/
theorem claim_C10_witness :
    close_position "BTCUSDT" (some (some 0)) = ([], none) :=
  claim_C10 "BTCUSDT" (some (some 0)) (Or.inr (Or.inr rfl))

end AITradingBot




